import Mathlib

/-!
Shallow embedding of the steering-behavior core of the bevy-starter boid
prototype (src/boids.rs, src/bullets.rs, src/input.rs).  2D vectors (glam
Vec2) are modelled as pairs of real numbers, 3D vectors (glam Vec3, used
for Transform.translation) as triples.  The glam `normalize` method, which
yields non-finite (NaN) components on a zero-length input, is modelled as
an Option-valued function returning `none` exactly on zero-length input;
`normalize_or_zero`, which is total, is modelled as a total function.
-/

namespace BoidSim

/-- 2D vector, modelling glam Vec2 with f32 components read as reals. -/
abbrev Vec2 : Type := ℝ × ℝ

/-- 3D vector, modelling glam Vec3 (Transform.translation). -/
abbrev Vec3 : Type := ℝ × ℝ × ℝ

-- Constants from src/boids.rs
/-- BOID_SPEED constant from boids.rs. -/
def BOID_SPEED : ℝ := 250

/-- BOID_SIZE constant from boids.rs. -/
def BOID_SIZE : ℝ := 10

/-- BOID_STEERING_FORCE constant from boids.rs. -/
def BOID_STEERING_FORCE : ℝ := 0.75

/-- BOID_SLOWING_RADIUS constant from boids.rs. -/
def BOID_SLOWING_RADIUS : ℝ := 100

/-- BOID_AVOIDANCE_FACTOR constant from boids.rs (initial AvoidanceFactor). -/
def BOID_AVOIDANCE_FACTOR : ℝ := 100

/-- MAX_AVOIDANCE constant from boids.rs. -/
def MAX_AVOIDANCE : ℝ := 10000

/-- BULLET_SPEED constant from bullets.rs. -/
def BULLET_SPEED : ℝ := 500

-- Vector operations (glam semantics)
/-- Euclidean length of a Vec2 (glam Vec2.length). -/
noncomputable def length2 (v : Vec2) : ℝ := Real.sqrt (v.1 ^ 2 + v.2 ^ 2)

/-- Squared length of a Vec2 (glam Vec2.length_squared). -/
def lengthSq2 (v : Vec2) : ℝ := v.1 ^ 2 + v.2 ^ 2

/-- Euclidean length of a Vec3 (glam Vec3.length). -/
noncomputable def length3 (v : Vec3) : ℝ :=
  Real.sqrt (v.1 ^ 2 + v.2.1 ^ 2 + v.2.2 ^ 2)

/-- Squared length of a Vec3 (glam Vec3.length_squared). -/
def lengthSq3 (v : Vec3) : ℝ := v.1 ^ 2 + v.2.1 ^ 2 + v.2.2 ^ 2

/-- Drop the z component (glam Vec3.truncate). -/
def truncate (v : Vec3) : Vec2 := (v.1, v.2.1)

/-- Append a z component (glam Vec2.extend). -/
def extend (v : Vec2) (z : ℝ) : Vec3 := (v.1, v.2, z)

/-- Model of glam Vec2.normalize: `v / v.length()`.  On a zero-length
input the Rust method returns non-finite (NaN) components; that failure
is modelled as `none`. -/
noncomputable def normalize2 (v : Vec2) : Option Vec2 :=
  if length2 v = 0 then none else some ((length2 v)⁻¹ • v)

/-- Model of glam Vec3.normalize, with the same NaN-as-none convention. -/
noncomputable def normalize3 (v : Vec3) : Option Vec3 :=
  if length3 v = 0 then none else some ((length3 v)⁻¹ • v)

/-- Model of glam Vec2.normalize_or_zero: the zero vector on zero-length
input, otherwise `v / v.length()`.  Total. -/
noncomputable def normalize_or_zero (v : Vec2) : Vec2 :=
  if length2 v = 0 then 0 else (length2 v)⁻¹ • v

/-- Model of glam Vec2.clamp_length_max: rescale to length `maxLen` when
the squared length exceeds `maxLen * maxLen`, otherwise unchanged. -/
noncomputable def clamp_length_max (v : Vec2) (maxLen : ℝ) : Vec2 :=
  if lengthSq2 v > maxLen * maxLen then (maxLen / Real.sqrt (lengthSq2 v)) • v
  else v

-- Behavior contributor systems (per-agent bodies, boids.rs)
/-- Body of seek_system (boids.rs) for one agent: the contribution added
to the steering accumulator.  The Velocity component the query fetches is
unused by the loop body. -/
noncomputable def seek_system (position target : Vec2) : Vec2 :=
  let path_to_target := target - position
  let distance := length2 path_to_target
  let desired_velocity := normalize_or_zero path_to_target
  if distance ≤ BOID_SLOWING_RADIUS then
    (distance / BOID_SLOWING_RADIUS) • desired_velocity
  else desired_velocity

/-- Body of flee_system (boids.rs) for one agent: the contribution added
to the steering accumulator.  The Velocity component the query fetches is
unused by the loop body. -/
noncomputable def flee_system (position target : Vec2) : Vec2 :=
  let path_to_target := position - target
  let distance := length2 path_to_target
  let desired_velocity := normalize_or_zero path_to_target
  if distance ≥ BOID_SLOWING_RADIUS then
    (BOID_SLOWING_RADIUS / distance) • desired_velocity
  else desired_velocity

/-- Avoidance force computed by one iteration of avoidance_system
(boids.rs) for the pair (self, other):
`(-vector.normalize().truncate() / distance) * avoidance_factor`
with `vector = other.translation - translation` and
`distance = vector.length_squared()`.  `none` models the non-finite
result of normalizing a zero-length separation vector. -/
noncomputable def avoidance_force (translation other_translation : Vec3)
    (factor : ℝ) : Option Vec2 :=
  let vector := other_translation - translation
  let distance := lengthSq3 vector
  (normalize3 vector).map fun n => factor • (distance⁻¹ • (-(truncate n)))

/-- One pairwise step of avoidance_system: the force is added to the
first steering accumulator and its negation to the second. -/
noncomputable def avoidance_step (steering other_steering : Vec2)
    (translation other_translation : Vec3) (factor : ℝ) :
    Option (Vec2 × Vec2) :=
  (avoidance_force translation other_translation factor).map fun f =>
    (steering + f, other_steering + (-f))

-- Motion integrator (movement_system, boids.rs)
/-- Pre-clamp velocity computed by movement_system:
`steer_force = steering * BOID_STEERING_FORCE * BOID_SPEED`,
`desired_velocity = steer_force - velocity`, then
`velocity += desired_velocity`. -/
def movement_pre_clamp (linvel steering : Vec2) : Vec2 :=
  let steer_force := (BOID_STEERING_FORCE * BOID_SPEED) • steering
  let desired_velocity := steer_force - linvel
  linvel + desired_velocity

/-- Body of movement_system (boids.rs) for one agent, returning the new
velocity and the reset steering accumulator.  The rotation write derived
from the clamped velocity only touches the Transform rotation, which no
embedded datum reads, and is omitted. -/
noncomputable def movement_system (linvel steering : Vec2) : Vec2 × Vec2 :=
  (clamp_length_max (movement_pre_clamp linvel steering) BOID_SPEED, 0)

-- Bullet spawning (shoot_system, bullets.rs)
/-- Data of the bullet spawned by one inner iteration of shoot_system
(bullets.rs) for a boid: spawn translation
`translation + velocity.normalize().extend(0) * BOID_SIZE * 2` and bullet
velocity `velocity.normalize() * BULLET_SPEED`.  `none` models the
non-finite result of normalizing a zero velocity. -/
noncomputable def shoot_bullet (translation : Vec3) (linvel : Vec2) :
    Option (Vec3 × Vec2) :=
  (normalize2 linvel).map fun n =>
    (translation + (BOID_SIZE * 2) • extend n 0, BULLET_SPEED • n)

-- AvoidanceFactor input (input_avoidance_system, boids.rs / input.rs)
/-- One event of input_avoidance_system: add `event.y * 100` to the
factor and clamp to `[0, MAX_AVOIDANCE]` (Rust f32 clamp). -/
noncomputable def avoidance_update (factor y : ℝ) : ℝ :=
  min (max (factor + y * 100) 0) MAX_AVOIDANCE

/-- Whole run of input_avoidance_system over a list of mouse-wheel y
deltas. -/
noncomputable def input_avoidance_system (factor : ℝ) (events : List ℝ) : ℝ :=
  events.foldl avoidance_update factor

-- Stance, tags and world state
/-- Stance enum from boids.rs. -/
inductive Stance : Type
  | Follow : Stance
  | Evade : Stance
deriving DecidableEq, Repr

/-- Marker components attached to one boid entity (Seek, Flee, Wander,
Avoid from boids.rs), as presence flags. -/
structure BoidTags : Type where
  seek : Bool
  flee : Bool
  wander : Bool
  avoid : Bool
deriving DecidableEq, Repr

/-- Components of one boid entity that the embedded systems touch. -/
structure BoidState : Type where
  translation : Vec3
  linvel : Vec2
  angvel : ℝ
  steering : Vec2
  tags : BoidTags

/-- World state: the PlayerStance resource plus the live boid entities. -/
structure World : Type where
  stance : Stance
  boids : List BoidState

/-- Tag rewrite behaviour_system applies to every boid for one
StanceChanged event: Follow removes Flee and inserts Seek, Evade removes
Seek and inserts Flee. -/
def applyStance (s : Stance) (t : BoidTags) : BoidTags :=
  match s with
  | Stance.Follow => { t with flee := false, seek := true }
  | Stance.Evade => { t with seek := false, flee := true }

/-- Body of input_stance_system (boids.rs) on one right-click: the
StanceChanged payload emitted given the current PlayerStance. -/
def input_stance_system (s : Stance) : Stance :=
  match s with
  | Stance.Follow => Stance.Evade
  | Stance.Evade => Stance.Follow

/-- Body of behaviour_system (boids.rs) for one StanceChanged event:
rewrite every boid tag set and store the new stance. -/
def behaviour_system (event : Stance) (w : World) : World :=
  { stance := event,
    boids := w.boids.map fun b => { b with tags := applyStance event b.tags } }

/-- Processing of one stance-toggle signal: input_stance_system emits the
opposite stance, behaviour_system applies it. -/
def toggle_step (w : World) : World :=
  behaviour_system (input_stance_system w.stance) w

-- Spawning (spawn_system, boids.rs)
/-- Boid entity spawned by spawn_system (boids.rs) for one BoidSpawned
event at `position`: Transform::from_xyz(position.x, position.y, 0),
markers Boid + Avoid + Seek, Steering(Vec2::ZERO), Velocity zero. -/
def spawnBoid (position : Vec2) : BoidState :=
  { translation := (position.1, position.2, 0),
    linvel := (0, 0),
    angvel := 0,
    steering := (0, 0),
    tags := { seek := true, flee := false, wander := false, avoid := true } }

/-- Body of spawn_system (boids.rs) over a list of BoidSpawned events:
one new entity per event, appended to the world. -/
def spawn_system (events : List Vec2) (w : World) : World :=
  { w with boids := w.boids ++ events.map spawnBoid }

-- Helper lemmas about the vector model
theorem smul_vec2 (c : ℝ) (v : Vec2) : c • v = (c * v.1, c * v.2) := by
  cases v with
  | mk x y => simp [Prod.smul_mk, smul_eq_mul]

theorem length2_nonneg (v : Vec2) : 0 ≤ length2 v := Real.sqrt_nonneg _

theorem lengthSq2_nonneg (v : Vec2) : 0 ≤ lengthSq2 v := by
  unfold lengthSq2; positivity

theorem length2_sq (v : Vec2) : length2 v ^ 2 = lengthSq2 v := by
  unfold length2 lengthSq2
  exact Real.sq_sqrt (by positivity)

theorem length2_eq_zero_iff (v : Vec2) : length2 v = 0 ↔ v = 0 := by
  unfold length2
  rw [show v = (v.1, v.2) from rfl]
  rw [Real.sqrt_eq_zero (by positivity)]
  constructor
  · intro h
    have h1 : v.1 = 0 := by nlinarith [sq_nonneg v.1, sq_nonneg v.2]
    have h2 : v.2 = 0 := by nlinarith [sq_nonneg v.1, sq_nonneg v.2]
    simp [h1, h2, Prod.ext_iff]
  · intro h
    rw [Prod.mk.injEq] at h
    simp [h.1, h.2]

theorem length2_pos_of_ne (v : Vec2) (h : v ≠ 0) : 0 < length2 v := by
  rcases lt_or_eq_of_le (length2_nonneg v) with hlt | heq
  · exact hlt
  · exact absurd ((length2_eq_zero_iff v).mp heq.symm) h

theorem length2_smul (c : ℝ) (v : Vec2) :
    length2 (c • v) = |c| * length2 v := by
  rw [smul_vec2]
  unfold length2
  rw [show (c * v.1, c * v.2).1 = c * v.1 from rfl,
    show (c * v.1, c * v.2).2 = c * v.2 from rfl]
  rw [show (c * v.1) ^ 2 + (c * v.2) ^ 2 = c ^ 2 * (v.1 ^ 2 + v.2 ^ 2) by ring]
  rw [Real.sqrt_mul (by positivity), Real.sqrt_sq_eq_abs]

theorem length2_neg (v : Vec2) : length2 (-v) = length2 v := by
  have : -v = (-1 : ℝ) • v := by
    rw [smul_vec2]; cases v with
    | mk x y => simp [Prod.ext_iff]
  rw [this, length2_smul]
  norm_num

theorem normalize_or_zero_of_ne (v : Vec2) (h : v ≠ 0) :
    normalize_or_zero v = (length2 v)⁻¹ • v := by
  unfold normalize_or_zero
  rw [if_neg (by simpa [length2_eq_zero_iff] using h)]

theorem length2_normalize_or_zero (v : Vec2) (h : v ≠ 0) :
    length2 (normalize_or_zero v) = 1 := by
  rw [normalize_or_zero_of_ne v h, length2_smul]
  have hp : 0 < length2 v := length2_pos_of_ne v h
  rw [abs_of_pos (by positivity)]
  field_simp

theorem length3_zero : length3 (0 : Vec3) = 0 := by
  simp [length3]

theorem length2_zero_pair : length2 ((0 : ℝ), (0 : ℝ)) = 0 := by
  simp [length2]

theorem normalize3_zero : normalize3 (0 : Vec3) = none := by
  unfold normalize3
  rw [if_pos length3_zero]

theorem normalize2_zero_pair : normalize2 ((0 : ℝ), (0 : ℝ)) = none := by
  unfold normalize2
  rw [if_pos length2_zero_pair]

theorem length2_zero : length2 (0 : Vec2) = 0 := by
  simp [length2]

theorem normalize2_zero : normalize2 (0 : Vec2) = none := by
  unfold normalize2
  rw [if_pos length2_zero]

theorem truncate_sub (a b : Vec3) :
    truncate (a - b) = truncate a - truncate b := rfl

theorem truncate_smul (c : ℝ) (v : Vec3) :
    truncate (c • v) = c • truncate v := rfl

theorem snd_snd_sub (a b : Vec3) : (a - b).2.2 = a.2.2 - b.2.2 := rfl

theorem length3_eq_length2 (v : Vec3) (hz : v.2.2 = 0) :
    length3 v = length2 (truncate v) := by
  unfold length3 length2 truncate
  rw [hz]
  norm_num

theorem lengthSq3_eq_lengthSq2 (v : Vec3) (hz : v.2.2 = 0) :
    lengthSq3 v = lengthSq2 (truncate v) := by
  unfold lengthSq3 lengthSq2 truncate
  rw [hz]
  norm_num

theorem lengthSq2_pos_of_ne (v : Vec2) (h : v ≠ 0) : 0 < lengthSq2 v := by
  have h1 := length2_pos_of_ne v h
  have h2 := length2_sq v
  nlinarith

-- Claim theorems
/-- Claim C1 (code_bug evidence): the avoidance pairwise force for two
co-located agents, and the bullet data derived from a zero velocity, are
computed with glam normalize, which yields no finite vector on
zero-length input (modelled as none) — the contribution does NOT
short-circuit to the zero vector as the claim states. -/
theorem normalize_zero_not_failsafe (t : Vec3) (factor : ℝ) :
    avoidance_force t t factor = none ∧ shoot_bullet t ((0 : ℝ), (0 : ℝ)) = none := by
  constructor
  · simp [avoidance_force, sub_self, normalize3_zero]
  · simp [shoot_bullet, normalize2_zero_pair, normalize2_zero]

/-- Claim C2, counterexample: with zero accumulated steering and current
velocity (1, 0), the pre-clamp velocity computed by movement_system is
(0, 0), not old_velocity + steering * BOID_STEERING_FORCE * BOID_SPEED =
(1, 0). -/
theorem movement_pre_clamp_counterexample :
    movement_pre_clamp ((1 : ℝ), (0 : ℝ)) ((0 : ℝ), (0 : ℝ)) ≠
      ((1 : ℝ), (0 : ℝ)) +
        (BOID_STEERING_FORCE * BOID_SPEED) • ((0 : ℝ), (0 : ℝ)) := by
  have h1 : movement_pre_clamp ((1 : ℝ), (0 : ℝ)) ((0 : ℝ), (0 : ℝ)) =
      ((0 : ℝ), (0 : ℝ)) := by
    simp [movement_pre_clamp, smul_vec2, Prod.mk_add_mk, Prod.mk_sub_mk]
  rw [h1, smul_vec2]
  simp [Prod.ext_iff, Prod.mk_add_mk]

/-- Claim C2, amended: the delta movement_system adds to the current
velocity is steer_force − current_velocity, so the pre-clamp velocity
equals steering * BOID_STEERING_FORCE * BOID_SPEED, independent of the
old velocity. -/
theorem movement_pre_clamp_eq_steer_force (linvel steering : Vec2) :
    movement_pre_clamp linvel steering =
      (BOID_STEERING_FORCE * BOID_SPEED) • steering := by
  show linvel + ((BOID_STEERING_FORCE * BOID_SPEED) • steering - linvel) =
    (BOID_STEERING_FORCE * BOID_SPEED) • steering
  generalize (BOID_STEERING_FORCE * BOID_SPEED) • steering = k
  abel

/-- Claim C3: for every current velocity and any accumulated steering
vector, the velocity produced by movement_system has magnitude at most
BOID_SPEED, and it is a positive scalar multiple of the pre-clamp
velocity (a magnitude clamp that preserves direction, not a per-axis
clamp). -/
theorem movement_velocity_clamped (linvel steering : Vec2) :
    length2 (movement_system linvel steering).1 ≤ BOID_SPEED ∧
      ∃ c : ℝ, 0 < c ∧ c ≤ 1 ∧
        (movement_system linvel steering).1 =
          c • movement_pre_clamp linvel steering := by
  have hB : (0 : ℝ) < BOID_SPEED := by norm_num [BOID_SPEED]
  show length2 (clamp_length_max (movement_pre_clamp linvel steering) BOID_SPEED) ≤
      BOID_SPEED ∧
    ∃ c : ℝ, 0 < c ∧ c ≤ 1 ∧
      clamp_length_max (movement_pre_clamp linvel steering) BOID_SPEED =
        c • movement_pre_clamp linvel steering
  generalize movement_pre_clamp linvel steering = u
  unfold clamp_length_max
  by_cases hgt : lengthSq2 u > BOID_SPEED * BOID_SPEED
  · rw [if_pos hgt]
    have hl : BOID_SPEED < length2 u := by
      nlinarith [length2_sq u, length2_nonneg u]
    have hlpos : 0 < length2 u := lt_trans hB hl
    have hsq : Real.sqrt (lengthSq2 u) = length2 u := rfl
    constructor
    · rw [hsq, length2_smul, abs_of_pos (div_pos hB hlpos),
        div_mul_cancel₀ _ (ne_of_gt hlpos)]
    · exact ⟨BOID_SPEED / length2 u, div_pos hB hlpos,
        by rw [div_le_one hlpos]; exact le_of_lt hl, by rw [hsq]⟩
  · rw [if_neg hgt]
    push_neg at hgt
    constructor
    · nlinarith [length2_sq u, length2_nonneg u]
    · exact ⟨1, one_pos, le_refl 1, (one_smul ℝ u).symm⟩

/-- Claim C4: when the distance to the target exceeds the slowing radius,
the Seek contribution is the unit vector toward the target; when the
distance d satisfies 0 < d ≤ R, it is that unit vector scaled by d / R,
so its magnitude is d / R. -/
theorem seek_contribution_spec (position target : Vec2) :
    (BOID_SLOWING_RADIUS < length2 (target - position) →
      seek_system position target =
          (length2 (target - position))⁻¹ • (target - position) ∧
        length2 (seek_system position target) = 1) ∧
    (0 < length2 (target - position) →
      length2 (target - position) ≤ BOID_SLOWING_RADIUS →
      seek_system position target =
          (length2 (target - position) / BOID_SLOWING_RADIUS) •
            ((length2 (target - position))⁻¹ • (target - position)) ∧
        length2 (seek_system position target) =
          length2 (target - position) / BOID_SLOWING_RADIUS) := by
  have hR : (0 : ℝ) < BOID_SLOWING_RADIUS := by norm_num [BOID_SLOWING_RADIUS]
  constructor
  · intro h
    have hd : 0 < length2 (target - position) := lt_trans hR h
    have hne : target - position ≠ 0 := by
      intro h0
      rw [h0, length2_zero] at hd
      exact lt_irrefl 0 hd
    have hs : seek_system position target =
        (length2 (target - position))⁻¹ • (target - position) := by
      show (if length2 (target - position) ≤ BOID_SLOWING_RADIUS then
          (length2 (target - position) / BOID_SLOWING_RADIUS) •
            normalize_or_zero (target - position)
        else normalize_or_zero (target - position)) = _
      rw [if_neg (not_le.mpr h)]
      exact normalize_or_zero_of_ne _ hne
    refine ⟨hs, ?_⟩
    rw [hs, length2_smul, abs_of_pos (inv_pos.mpr hd),
      inv_mul_cancel₀ (ne_of_gt hd)]
  · intro hd hle
    have hne : target - position ≠ 0 := by
      intro h0
      rw [h0, length2_zero] at hd
      exact lt_irrefl 0 hd
    have hs : seek_system position target =
        (length2 (target - position) / BOID_SLOWING_RADIUS) •
          ((length2 (target - position))⁻¹ • (target - position)) := by
      show (if length2 (target - position) ≤ BOID_SLOWING_RADIUS then
          (length2 (target - position) / BOID_SLOWING_RADIUS) •
            normalize_or_zero (target - position)
        else normalize_or_zero (target - position)) = _
      rw [if_pos hle, normalize_or_zero_of_ne _ hne]
    refine ⟨hs, ?_⟩
    have hunit : length2 ((length2 (target - position))⁻¹ • (target - position)) = 1 := by
      rw [length2_smul, abs_of_pos (inv_pos.mpr hd),
        inv_mul_cancel₀ (ne_of_gt hd)]
    rw [hs, length2_smul, hunit, mul_one, abs_of_pos (div_pos hd hR)]

/-- Witness for seek_contribution_spec at the spec scenario: agent at
(0, 0), target at (200, 0), distance 200 > R = 100, contribution is the
unit vector toward the target. -/
theorem seek_contribution_spec_witness :
    BOID_SLOWING_RADIUS <
        length2 ((((200 : ℝ), (0 : ℝ)) : Vec2) - (((0 : ℝ), (0 : ℝ)) : Vec2)) ∧
      (seek_system ((0 : ℝ), (0 : ℝ)) ((200 : ℝ), (0 : ℝ)) =
          (length2 ((((200 : ℝ), (0 : ℝ)) : Vec2) - (((0 : ℝ), (0 : ℝ)) : Vec2)))⁻¹ •
            ((((200 : ℝ), (0 : ℝ)) : Vec2) - (((0 : ℝ), (0 : ℝ)) : Vec2)) ∧
        length2 (seek_system ((0 : ℝ), (0 : ℝ)) ((200 : ℝ), (0 : ℝ))) = 1) := by
  have h : BOID_SLOWING_RADIUS <
      length2 ((((200 : ℝ), (0 : ℝ)) : Vec2) - (((0 : ℝ), (0 : ℝ)) : Vec2)) := by
    have hsub : ((((200 : ℝ), (0 : ℝ)) : Vec2) - (((0 : ℝ), (0 : ℝ)) : Vec2)) =
        (((200 : ℝ), (0 : ℝ)) : Vec2) := by
      rw [Prod.mk_sub_mk]
      norm_num
    rw [hsub]
    unfold length2
    rw [show ((200 : ℝ) ^ 2 + (0 : ℝ) ^ 2 : ℝ) = 200 ^ 2 by norm_num,
      Real.sqrt_sq (by norm_num : (0 : ℝ) ≤ 200)]
    norm_num [BOID_SLOWING_RADIUS]
  exact ⟨h, (seek_contribution_spec ((0 : ℝ), (0 : ℝ)) ((200 : ℝ), (0 : ℝ))).1 h⟩

/-- Claim C5, counterexample: with the agent exactly at the target, the
distance 0 is below the slowing radius, yet the Flee contribution is the
zero vector, not a full unit vector as the claim states. -/
theorem flee_zero_distance_counterexample :
    length2 ((((0 : ℝ), (0 : ℝ)) : Vec2) - (((0 : ℝ), (0 : ℝ)) : Vec2)) <
        BOID_SLOWING_RADIUS ∧
      flee_system ((0 : ℝ), (0 : ℝ)) ((0 : ℝ), (0 : ℝ)) = 0 ∧
      length2 (flee_system ((0 : ℝ), (0 : ℝ)) ((0 : ℝ), (0 : ℝ))) ≠ 1 := by
  have hsub : ((((0 : ℝ), (0 : ℝ)) : Vec2) - (((0 : ℝ), (0 : ℝ)) : Vec2)) =
      (((0 : ℝ), (0 : ℝ)) : Vec2) := by
    rw [Prod.mk_sub_mk]
    norm_num
  have hlen : length2 ((((0 : ℝ), (0 : ℝ)) : Vec2) - (((0 : ℝ), (0 : ℝ)) : Vec2)) = 0 := by
    rw [hsub, length2_zero_pair]
  have hflee : flee_system ((0 : ℝ), (0 : ℝ)) ((0 : ℝ), (0 : ℝ)) = 0 := by
    show (if length2 ((((0 : ℝ), (0 : ℝ)) : Vec2) - (((0 : ℝ), (0 : ℝ)) : Vec2)) ≥
        BOID_SLOWING_RADIUS then
        (BOID_SLOWING_RADIUS /
            length2 ((((0 : ℝ), (0 : ℝ)) : Vec2) - (((0 : ℝ), (0 : ℝ)) : Vec2))) •
          normalize_or_zero ((((0 : ℝ), (0 : ℝ)) : Vec2) - (((0 : ℝ), (0 : ℝ)) : Vec2))
      else normalize_or_zero ((((0 : ℝ), (0 : ℝ)) : Vec2) - (((0 : ℝ), (0 : ℝ)) : Vec2))) = 0
    rw [if_neg (by rw [hlen]; norm_num [BOID_SLOWING_RADIUS])]
    unfold normalize_or_zero
    rw [if_pos (by rw [hsub]; exact length2_zero_pair)]
  refine ⟨by rw [hlen]; norm_num [BOID_SLOWING_RADIUS], hflee, ?_⟩
  rw [hflee, length2_zero]
  norm_num

/-- Claim C5, amended: the Flee contribution points along position −
target; at distance d with 0 < d < R it is the full unit vector, at
distance d ≥ R it is that unit vector scaled by R / d (magnitude R / d,
tending to 0 as d grows), and at distance 0 it is the zero vector. -/
theorem flee_contribution_spec (position target : Vec2) :
    (0 < length2 (position - target) →
      length2 (position - target) < BOID_SLOWING_RADIUS →
      flee_system position target =
          (length2 (position - target))⁻¹ • (position - target) ∧
        length2 (flee_system position target) = 1) ∧
    (BOID_SLOWING_RADIUS ≤ length2 (position - target) →
      flee_system position target =
          (BOID_SLOWING_RADIUS / length2 (position - target)) •
            ((length2 (position - target))⁻¹ • (position - target)) ∧
        length2 (flee_system position target) =
          BOID_SLOWING_RADIUS / length2 (position - target)) ∧
    (length2 (position - target) = 0 → flee_system position target = 0) := by
  have hR : (0 : ℝ) < BOID_SLOWING_RADIUS := by norm_num [BOID_SLOWING_RADIUS]
  refine ⟨?_, ?_, ?_⟩
  · intro hd hlt
    have hne : position - target ≠ 0 := by
      intro h0
      rw [h0, length2_zero] at hd
      exact lt_irrefl 0 hd
    have hs : flee_system position target =
        (length2 (position - target))⁻¹ • (position - target) := by
      show (if length2 (position - target) ≥ BOID_SLOWING_RADIUS then
          (BOID_SLOWING_RADIUS / length2 (position - target)) •
            normalize_or_zero (position - target)
        else normalize_or_zero (position - target)) = _
      rw [if_neg (not_le.mpr hlt)]
      exact normalize_or_zero_of_ne _ hne
    refine ⟨hs, ?_⟩
    rw [hs, length2_smul, abs_of_pos (inv_pos.mpr hd),
      inv_mul_cancel₀ (ne_of_gt hd)]
  · intro hge
    have hd : 0 < length2 (position - target) := lt_of_lt_of_le hR hge
    have hne : position - target ≠ 0 := by
      intro h0
      rw [h0, length2_zero] at hd
      exact lt_irrefl 0 hd
    have hs : flee_system position target =
        (BOID_SLOWING_RADIUS / length2 (position - target)) •
          ((length2 (position - target))⁻¹ • (position - target)) := by
      show (if length2 (position - target) ≥ BOID_SLOWING_RADIUS then
          (BOID_SLOWING_RADIUS / length2 (position - target)) •
            normalize_or_zero (position - target)
        else normalize_or_zero (position - target)) = _
      rw [if_pos hge, normalize_or_zero_of_ne _ hne]
    refine ⟨hs, ?_⟩
    have hunit : length2 ((length2 (position - target))⁻¹ • (position - target)) = 1 := by
      rw [length2_smul, abs_of_pos (inv_pos.mpr hd),
        inv_mul_cancel₀ (ne_of_gt hd)]
    rw [hs, length2_smul, hunit, mul_one, abs_of_pos (div_pos hR hd)]
  · intro h0
    have hzero : position - target = 0 := (length2_eq_zero_iff _).mp h0
    show (if length2 (position - target) ≥ BOID_SLOWING_RADIUS then
        (BOID_SLOWING_RADIUS / length2 (position - target)) •
          normalize_or_zero (position - target)
      else normalize_or_zero (position - target)) = 0
    rw [if_neg (by rw [h0]; norm_num [BOID_SLOWING_RADIUS])]
    unfold normalize_or_zero
    rw [if_pos h0]

/-- Witness for flee_contribution_spec: agent at (0, 0), target at
(0, 300), distance 300 ≥ R = 100, so the contribution is the away-unit
vector scaled by 100 / 300. -/
theorem flee_contribution_spec_witness :
    BOID_SLOWING_RADIUS ≤
        length2 ((((0 : ℝ), (0 : ℝ)) : Vec2) - (((0 : ℝ), (300 : ℝ)) : Vec2)) ∧
      (flee_system ((0 : ℝ), (0 : ℝ)) ((0 : ℝ), (300 : ℝ)) =
          (BOID_SLOWING_RADIUS /
              length2 ((((0 : ℝ), (0 : ℝ)) : Vec2) - (((0 : ℝ), (300 : ℝ)) : Vec2))) •
            ((length2 ((((0 : ℝ), (0 : ℝ)) : Vec2) - (((0 : ℝ), (300 : ℝ)) : Vec2)))⁻¹ •
              ((((0 : ℝ), (0 : ℝ)) : Vec2) - (((0 : ℝ), (300 : ℝ)) : Vec2))) ∧
        length2 (flee_system ((0 : ℝ), (0 : ℝ)) ((0 : ℝ), (300 : ℝ))) =
          BOID_SLOWING_RADIUS /
            length2 ((((0 : ℝ), (0 : ℝ)) : Vec2) - (((0 : ℝ), (300 : ℝ)) : Vec2))) := by
  have h : BOID_SLOWING_RADIUS ≤
      length2 ((((0 : ℝ), (0 : ℝ)) : Vec2) - (((0 : ℝ), (300 : ℝ)) : Vec2)) := by
    have hsub : ((((0 : ℝ), (0 : ℝ)) : Vec2) - (((0 : ℝ), (300 : ℝ)) : Vec2)) =
        (((0 : ℝ), (-300 : ℝ)) : Vec2) := by
      rw [Prod.mk_sub_mk]
      norm_num
    rw [hsub]
    unfold length2
    rw [show ((0 : ℝ) ^ 2 + (-300 : ℝ) ^ 2 : ℝ) = 300 ^ 2 by norm_num,
      Real.sqrt_sq (by norm_num : (0 : ℝ) ≤ 300)]
    norm_num [BOID_SLOWING_RADIUS]
  exact ⟨h, (flee_contribution_spec ((0 : ℝ), (0 : ℝ)) ((0 : ℝ), (300 : ℝ))).2.1 h⟩

/-- Claim C6: one avoidance_system step on a pair of avoidance-tagged
agents at distinct positions (with equal z, as all boids spawn at z = 0)
adds to the first steering accumulator the vector of magnitude
factor / squared-distance directed from the other agent toward the first,
and adds the exact negation of that vector to the other accumulator. -/
theorem avoidance_pair_spec (steering other_steering : Vec2) (t ot : Vec3)
    (factor : ℝ) (hz : t.2.2 = ot.2.2) (hne : truncate t ≠ truncate ot)
    (hf : 0 ≤ factor) :
    avoidance_step steering other_steering t ot factor =
        some
          (steering +
            (factor / lengthSq2 (truncate ot - truncate t)) •
              ((length2 (truncate t - truncate ot))⁻¹ •
                (truncate t - truncate ot)),
          other_steering -
            (factor / lengthSq2 (truncate ot - truncate t)) •
              ((length2 (truncate t - truncate ot))⁻¹ •
                (truncate t - truncate ot))) ∧
      length2
          ((factor / lengthSq2 (truncate ot - truncate t)) •
            ((length2 (truncate t - truncate ot))⁻¹ •
              (truncate t - truncate ot))) =
        factor / lengthSq2 (truncate ot - truncate t) := by
  have hz0 : (ot - t).2.2 = 0 := by
    rw [snd_snd_sub, hz, sub_self]
  have h2 : truncate (ot - t) = truncate ot - truncate t := truncate_sub ot t
  have hvne : truncate ot - truncate t ≠ 0 := sub_ne_zero.mpr (Ne.symm hne)
  have hlpos : 0 < length2 (truncate ot - truncate t) := length2_pos_of_ne _ hvne
  have hlen : length3 (ot - t) = length2 (truncate ot - truncate t) := by
    rw [length3_eq_length2 _ hz0, h2]
  have hsq : lengthSq3 (ot - t) = lengthSq2 (truncate ot - truncate t) := by
    rw [lengthSq3_eq_lengthSq2 _ hz0, h2]
  have hspos : 0 < lengthSq2 (truncate ot - truncate t) :=
    lengthSq2_pos_of_ne _ hvne
  have hn : normalize3 (ot - t) = some ((length3 (ot - t))⁻¹ • (ot - t)) := by
    unfold normalize3
    rw [if_neg (by rw [hlen]; exact ne_of_gt hlpos)]
  have hneg : length2 (truncate t - truncate ot) =
      length2 (truncate ot - truncate t) := by
    rw [show truncate t - truncate ot = -(truncate ot - truncate t) from
      (neg_sub _ _).symm, length2_neg]
  have hforce : avoidance_force t ot factor =
      some
        ((factor / lengthSq2 (truncate ot - truncate t)) •
          ((length2 (truncate t - truncate ot))⁻¹ •
            (truncate t - truncate ot))) := by
    show (normalize3 (ot - t)).map
        (fun n => factor • ((lengthSq3 (ot - t))⁻¹ • (-(truncate n)))) = _
    rw [hn, Option.map_some']
    congr 1
    rw [truncate_smul, h2, hlen, hsq, hneg]
    rw [show -((length2 (truncate ot - truncate t))⁻¹ •
        (truncate ot - truncate t)) =
      (length2 (truncate ot - truncate t))⁻¹ •
        (truncate t - truncate ot) by
        rw [← smul_neg, neg_sub]]
    rw [smul_smul, div_eq_mul_inv]
  constructor
  · show (avoidance_force t ot factor).map
        (fun f => (steering + f, other_steering + (-f))) = _
    rw [hforce, Option.map_some']
    simp only [sub_eq_add_neg]
  · rw [length2_smul, length2_smul, hneg,
      abs_of_pos (inv_pos.mpr hlpos),
      inv_mul_cancel₀ (ne_of_gt hlpos), mul_one,
      abs_of_nonneg (div_nonneg hf (le_of_lt hspos))]

/-- Witness for avoidance_pair_spec at the spec scenario: agents at
(0, 0, 0) and (10, 0, 0) with factor 100 and zero accumulators; the first
receives (-1, 0) and the second (1, 0). -/
theorem avoidance_pair_spec_witness :
    (((0 : ℝ), (0 : ℝ), (0 : ℝ)) : Vec3).2.2 =
        (((10 : ℝ), (0 : ℝ), (0 : ℝ)) : Vec3).2.2 ∧
      truncate (((0 : ℝ), (0 : ℝ), (0 : ℝ)) : Vec3) ≠
        truncate (((10 : ℝ), (0 : ℝ), (0 : ℝ)) : Vec3) ∧
      (0 : ℝ) ≤ 100 ∧
      (avoidance_step ((0 : ℝ), (0 : ℝ)) ((0 : ℝ), (0 : ℝ))
            (((0 : ℝ), (0 : ℝ), (0 : ℝ)) : Vec3)
            (((10 : ℝ), (0 : ℝ), (0 : ℝ)) : Vec3) 100 =
          some
            (((0 : ℝ), (0 : ℝ)) +
              ((100 : ℝ) /
                  lengthSq2
                    (truncate (((10 : ℝ), (0 : ℝ), (0 : ℝ)) : Vec3) -
                      truncate (((0 : ℝ), (0 : ℝ), (0 : ℝ)) : Vec3))) •
                ((length2
                      (truncate (((0 : ℝ), (0 : ℝ), (0 : ℝ)) : Vec3) -
                        truncate (((10 : ℝ), (0 : ℝ), (0 : ℝ)) : Vec3)))⁻¹ •
                  (truncate (((0 : ℝ), (0 : ℝ), (0 : ℝ)) : Vec3) -
                    truncate (((10 : ℝ), (0 : ℝ), (0 : ℝ)) : Vec3))),
            ((0 : ℝ), (0 : ℝ)) -
              ((100 : ℝ) /
                  lengthSq2
                    (truncate (((10 : ℝ), (0 : ℝ), (0 : ℝ)) : Vec3) -
                      truncate (((0 : ℝ), (0 : ℝ), (0 : ℝ)) : Vec3))) •
                ((length2
                      (truncate (((0 : ℝ), (0 : ℝ), (0 : ℝ)) : Vec3) -
                        truncate (((10 : ℝ), (0 : ℝ), (0 : ℝ)) : Vec3)))⁻¹ •
                  (truncate (((0 : ℝ), (0 : ℝ), (0 : ℝ)) : Vec3) -
                    truncate (((10 : ℝ), (0 : ℝ), (0 : ℝ)) : Vec3)))) ∧
        length2
            (((100 : ℝ) /
                lengthSq2
                  (truncate (((10 : ℝ), (0 : ℝ), (0 : ℝ)) : Vec3) -
                    truncate (((0 : ℝ), (0 : ℝ), (0 : ℝ)) : Vec3))) •
              ((length2
                    (truncate (((0 : ℝ), (0 : ℝ), (0 : ℝ)) : Vec3) -
                      truncate (((10 : ℝ), (0 : ℝ), (0 : ℝ)) : Vec3)))⁻¹ •
                (truncate (((0 : ℝ), (0 : ℝ), (0 : ℝ)) : Vec3) -
                  truncate (((10 : ℝ), (0 : ℝ), (0 : ℝ)) : Vec3)))) =
          (100 : ℝ) /
            lengthSq2
              (truncate (((10 : ℝ), (0 : ℝ), (0 : ℝ)) : Vec3) -
                truncate (((0 : ℝ), (0 : ℝ), (0 : ℝ)) : Vec3))) := by
  have hz : (((0 : ℝ), (0 : ℝ), (0 : ℝ)) : Vec3).2.2 =
      (((10 : ℝ), (0 : ℝ), (0 : ℝ)) : Vec3).2.2 := rfl
  have hne : truncate (((0 : ℝ), (0 : ℝ), (0 : ℝ)) : Vec3) ≠
      truncate (((10 : ℝ), (0 : ℝ), (0 : ℝ)) : Vec3) := by
    unfold truncate
    simp [Prod.ext_iff]
  have hf : (0 : ℝ) ≤ 100 := by norm_num
  exact ⟨hz, hne, hf,
    avoidance_pair_spec ((0 : ℝ), (0 : ℝ)) ((0 : ℝ), (0 : ℝ))
      (((0 : ℝ), (0 : ℝ), (0 : ℝ)) : Vec3)
      (((10 : ℝ), (0 : ℝ), (0 : ℝ)) : Vec3) 100 hz hne hf⟩

/-- Claim C7: from a world in Follow stance where every agent holds Seek
and not Flee, one stance-toggle signal leaves every agent holding Flee
and not Seek, a second toggle restores the world exactly, and after any
completed transition no agent holds both or neither of Seek and Flee. -/
theorem stance_toggle_spec (w : World) (hst : w.stance = Stance.Follow)
    (hseek : ∀ b ∈ w.boids, b.tags.seek = true ∧ b.tags.flee = false) :
    (∀ b ∈ (toggle_step w).boids, b.tags.flee = true ∧ b.tags.seek = false) ∧
      toggle_step (toggle_step w) = w ∧
      ∀ wx : World, ∀ b ∈ (toggle_step wx).boids, b.tags.seek ≠ b.tags.flee := by
  obtain ⟨st, boids⟩ := w
  simp only [World.mk.injEq] at hst ⊢
  subst hst
  refine ⟨?_, ?_, ?_⟩
  · intro b hb
    have hb2 : b ∈ List.map
        (fun b => { b with tags := applyStance Stance.Evade b.tags }) boids := hb
    rw [List.mem_map] at hb2
    obtain ⟨a, _, rfl⟩ := hb2
    simp [applyStance]
  · show World.mk Stance.Follow
        (List.map
          (fun (b : BoidState) =>
            { b with tags := applyStance Stance.Follow b.tags })
          (List.map
            (fun (b : BoidState) =>
              { b with tags := applyStance Stance.Evade b.tags })
            boids)) =
      World.mk Stance.Follow boids
    rw [World.mk.injEq]
    refine ⟨rfl, ?_⟩
    rw [List.map_map]
    have hid : ∀ b ∈ boids,
        ((fun b => { b with tags := applyStance Stance.Follow b.tags }) ∘
          (fun b => { b with tags := applyStance Stance.Evade b.tags })) b = b := by
      intro b hb
      obtain ⟨hs, hfl⟩ := hseek b hb
      obtain ⟨tr, lv, av, stv, tg⟩ := b
      obtain ⟨sk, fl, wd, avd⟩ := tg
      simp only at hs hfl
      subst hs
      subst hfl
      rfl
    rw [List.map_congr_left hid, List.map_id']
  · intro wx b hb
    obtain ⟨stx, boidsx⟩ := wx
    cases stx with
    | Follow =>
      have hb2 : b ∈ List.map
          (fun b => { b with tags := applyStance Stance.Evade b.tags }) boidsx := hb
      rw [List.mem_map] at hb2
      obtain ⟨a, _, rfl⟩ := hb2
      simp [applyStance]
    | Evade =>
      have hb2 : b ∈ List.map
          (fun b => { b with tags := applyStance Stance.Follow b.tags }) boidsx := hb
      rw [List.mem_map] at hb2
      obtain ⟨a, _, rfl⟩ := hb2
      simp [applyStance]

/-- Witness for stance_toggle_spec on a one-agent world in Follow stance
whose agent was just spawned (so it holds Seek and not Flee). -/
theorem stance_toggle_spec_witness :
    (World.mk Stance.Follow [spawnBoid ((0 : ℝ), (0 : ℝ))]).stance =
        Stance.Follow ∧
      (∀ b ∈ (World.mk Stance.Follow [spawnBoid ((0 : ℝ), (0 : ℝ))]).boids,
        b.tags.seek = true ∧ b.tags.flee = false) ∧
      ((∀ b ∈ (toggle_step
            (World.mk Stance.Follow [spawnBoid ((0 : ℝ), (0 : ℝ))])).boids,
          b.tags.flee = true ∧ b.tags.seek = false) ∧
        toggle_step (toggle_step
            (World.mk Stance.Follow [spawnBoid ((0 : ℝ), (0 : ℝ))])) =
          World.mk Stance.Follow [spawnBoid ((0 : ℝ), (0 : ℝ))] ∧
        ∀ wx : World, ∀ b ∈ (toggle_step wx).boids,
          b.tags.seek ≠ b.tags.flee) := by
  have hseek : ∀ b ∈ (World.mk Stance.Follow
      [spawnBoid ((0 : ℝ), (0 : ℝ))]).boids,
      b.tags.seek = true ∧ b.tags.flee = false := by
    intro b hb
    rw [show (World.mk Stance.Follow [spawnBoid ((0 : ℝ), (0 : ℝ))]).boids =
      [spawnBoid ((0 : ℝ), (0 : ℝ))] from rfl, List.mem_singleton] at hb
    subst hb
    exact ⟨rfl, rfl⟩
  exact ⟨rfl, hseek,
    stance_toggle_spec (World.mk Stance.Follow [spawnBoid ((0 : ℝ), (0 : ℝ))])
      rfl hseek⟩

/-- Claim C8: after processing any avoidance-gain-adjust signal, at any
point in any sequence of signals of any signs and magnitudes, the
AvoidanceFactor value lies in [0, MAX_AVOIDANCE]. -/
theorem avoidance_factor_bounds (factor : ℝ) (ys : List ℝ) (y : ℝ) :
    0 ≤ input_avoidance_system factor (ys ++ [y]) ∧
      input_avoidance_system factor (ys ++ [y]) ≤ MAX_AVOIDANCE := by
  unfold input_avoidance_system
  rw [List.foldl_append]
  constructor
  · exact le_min (le_max_right _ _) (by norm_num [MAX_AVOIDANCE])
  · exact min_le_right _ _

/-- Claim C9: one spawn signal at p creates exactly one new agent,
appended to the world, positioned at p with zero velocity and zero
steering; the rest of the world is unchanged. -/
theorem spawn_creates_one_agent (w : World) (p : Vec2) :
    (spawn_system [p] w).boids = w.boids ++ [spawnBoid p] ∧
      (spawn_system [p] w).boids.length = w.boids.length + 1 ∧
      (spawn_system [p] w).stance = w.stance ∧
      (spawnBoid p).translation = (p.1, p.2, 0) ∧
      (spawnBoid p).linvel = ((0 : ℝ), (0 : ℝ)) ∧
      (spawnBoid p).steering = ((0 : ℝ), (0 : ℝ)) := by
  refine ⟨rfl, ?_, rfl, rfl, rfl, rfl⟩
  simp [spawn_system]

/-- Claim C10: every spawned agent receives exactly the tags Seek and
Avoid (never Flee, never Wander), even when the process-wide stance is
Evade at spawn time; spawning does not change the stance. -/
theorem spawn_tags_spec (w : World) (p : Vec2) (h : w.stance = Stance.Evade) :
    (spawnBoid p).tags =
        { seek := true, flee := false, wander := false, avoid := true } ∧
      spawn_system [p] w = { w with boids := w.boids ++ [spawnBoid p] } ∧
      (spawn_system [p] w).stance = Stance.Evade := by
  refine ⟨rfl, rfl, ?_⟩
  rw [show (spawn_system [p] w).stance = w.stance from rfl, h]

/-- Witness for spawn_tags_spec at the spec scenario position (5, 5) and
a world whose stance is Evade. -/
theorem spawn_tags_spec_witness :
    (World.mk Stance.Evade []).stance = Stance.Evade ∧
      ((spawnBoid ((5 : ℝ), (5 : ℝ))).tags =
          { seek := true, flee := false, wander := false, avoid := true } ∧
        spawn_system [((5 : ℝ), (5 : ℝ))] (World.mk Stance.Evade []) =
          { World.mk Stance.Evade [] with
            boids := (World.mk Stance.Evade []).boids ++
              [spawnBoid ((5 : ℝ), (5 : ℝ))] } ∧
        (spawn_system [((5 : ℝ), (5 : ℝ))] (World.mk Stance.Evade [])).stance =
          Stance.Evade) :=
  ⟨rfl, spawn_tags_spec (World.mk Stance.Evade []) ((5 : ℝ), (5 : ℝ)) rfl⟩

end BoidSim
